import Mathlib

/-!
Shallow embedding of the Dashboard component of the urlfrontend repository
(file src/page/Dashboard.tsx, provided as src/unnamed/part_000).

The embedding models:
* the JSON values that can arrive as a parsed response body (inductive Json),
  together with the JavaScript truthiness, typeof and property-lookup
  semantics that the source relies on;
* fetchUserUrls (lines 51-92): the fetch-and-normalize pipeline of the
  LinkCollectionStore, with the try/catch/finally structure made explicit
  (the try block is an Except computation, the catch converts every error
  into the empty-collection-plus-log outcome, the finally clears the
  loading flag on both paths);
* handleSubmit (lines 94-154): the LinkCreationFlow, modelled as a state
  transition on the component state plus an explicit effect record
  (navigation, the outgoing request body, refresh invocations, alert);
* the mount effect (lines 38-49): the SessionGate;
* getValidityStatus (lines 171-184): the ExpiryCalculator.  Timestamps are
  integers (milliseconds since the epoch, the value of Date.getTime); the
  urgency tiers expired/urgent/normal of the specification appear in the
  source as the colors text-red-500 / text-yellow-500 / text-green-500.
-/

namespace UrlFrontend

/-- A JSON value, as produced by response.json(). Numbers are modelled as
integers; no claim depends on fractional numeric values. -/
inductive Json where
  | null : Json
  | bool : Bool → Json
  | num : Int → Json
  | str : String → Json
  | arr : List Json → Json
  | obj : List (String × Json) → Json


/-- JavaScript truthiness of a JSON value: null, false, 0 and the empty
string are falsy; every array and every object is truthy. -/
def jsTruthy : Json → Bool
  | Json.null => false
  | Json.bool b => b
  | Json.num n => n != 0
  | Json.str s => s != ""
  | Json.arr _ => true
  | Json.obj _ => true

/-- Property lookup on a JSON value (data.urls in the source): only objects
have named properties; on every other JSON-derived value the lookup yields
undefined, modelled as none. -/
def Json.getField : Json → String → Option Json
  | Json.obj fields, key => (fields.find? (fun p => p.1 == key)).map (fun p => p.2)
  | _, _ => none

/-- Array.isArray. -/
def Json.isArray : Json → Bool
  | Json.arr _ => true
  | _ => false

/-- The JavaScript test (typeof v === object): true for objects, arrays and
null. -/
def jsTypeofObject : Json → Bool
  | Json.obj _ => true
  | Json.arr _ => true
  | Json.null => true
  | _ => false

/-- Test for the JSON null value (v === null in the source filter). -/
def Json.isNull : Json → Bool
  | Json.null => true
  | _ => false

/-- The membership test (the string _id in v) on a JSON-derived value: an
object carries the key, or it does not; arrays parsed from JSON have only
index properties, so the test is false on every non-object. -/
def hasIdKey : Json → Bool
  | Json.obj fields => fields.any (fun p => p.1 == "_id")
  | _ => false

/-- Object.values: the property values of an object, in order. -/
def Json.values : Json → List Json
  | Json.obj fields => fields.map (fun p => p.2)
  | _ => []

/-- A JSON value that is neither an array nor an object (nor a field
holder): the shapes the normalization cascade does not recognise. -/
def Json.isPrimitive : Json → Bool
  | Json.null => true
  | Json.bool _ => true
  | Json.num _ => true
  | Json.str _ => true
  | _ => false

/-- Normalization of the response body of GET /api/url/myurls
(source lines 72-82):

  let urlsArray = []
  if (data and data.urls and Array.isArray(data.urls)) urlsArray = data.urls
  else if (Array.isArray(data)) urlsArray = data
  else if (data and typeof data === object)
    urlsArray = Object.values(data).filter(item =>
      typeof item === object and item !== null and (_id in item))
-/
def extractUrlsArray (data : Json) : List Json :=
  if jsTruthy data && (match Json.getField data ("urls") with
      | some u => jsTruthy u && Json.isArray u
      | none => false) then
    match Json.getField data ("urls") with
    | some (Json.arr xs) => xs
    | _ => []
  else if Json.isArray data then
    match data with
    | Json.arr xs => xs
    | _ => []
  else if jsTruthy data && jsTypeofObject data then
    (Json.values data).filter (fun item =>
      jsTypeofObject item && !(Json.isNull item) && hasIdKey item)
  else
    []

/-- Environment of one execution of fetchUserUrls: either the fetch (or the
body parse) throws, or an HTTP response with ok flag and parsed JSON body
arrives. -/
inductive FetchOutcome where
  | transportError : FetchOutcome
  | response : Bool → Json → FetchOutcome


/-- An execution is a failure when the transport throws or the response
status is not ok. -/
def FetchOutcome.isFailure : FetchOutcome → Bool
  | FetchOutcome.transportError => true
  | FetchOutcome.response ok _ => !ok

/-- Result state of one fetchUserUrls run: the values passed to setUrls and
setUrlsLoading, and whether console.error was reached. -/
structure FetchResult where
  urls : List Json
  urlsLoading : Bool
  errorLogged : Bool


/-- The try block of fetchUserUrls (source lines 52-85): the thrown error
is the error channel of the Except. A non-ok response throws before the
body is read (line 65); a transport or parse failure is a thrown error as
well. -/
def fetchAttempt : FetchOutcome → Except String (List Json)
  | FetchOutcome.transportError => Except.error ("TypeError: Failed to fetch")
  | FetchOutcome.response ok body =>
      if !ok then Except.error ("Failed to fetch URLs")
      else Except.ok (extractUrlsArray body)

/-- fetchUserUrls (source lines 51-92): the catch clause (lines 86-88)
consumes every thrown error, logging it and emptying the collection, so the
function always returns an ordinary result; the finally clause (lines
89-91) sets urlsLoading to false on both paths. -/
def fetchUserUrls (outcome : FetchOutcome) : FetchResult :=
  match fetchAttempt outcome with
  | Except.ok xs => { urls := xs, urlsLoading := false, errorLogged := false }
  | Except.error _ => { urls := [], urlsLoading := false, errorLogged := true }

end UrlFrontend

namespace UrlFrontend

/-- The formData state (source lines 27-31). -/
structure FormData where
  originalUrl : String
  customName : String
  validityPeriod : String


/-- The form defaults, also the reset value after a successful creation
(source lines 139-143). -/
def defaultFormData : FormData :=
  { originalUrl := "", customName := "", validityPeriod := "7days" }

/-- The outgoing body of POST /api/url/shorten; customName = none means the
field is absent from the payload. -/
structure RequestBody where
  originalUrl : String
  validityPeriod : String
  customName : Option String


/-- The trim() method of JavaScript strings: the string with leading and
trailing whitespace removed. -/
def jsTrim (s : String) : String :=
  String.mk (((s.data.dropWhile Char.isWhitespace).reverse.dropWhile
    Char.isWhitespace).reverse)

/-- Construction of the request body (source lines 107-115): customName is
added only when its trimmed value is truthy, and the value added is the
original, untrimmed formData.customName. -/
def buildRequestBody (form : FormData) : RequestBody :=
  { originalUrl := form.originalUrl
    validityPeriod := form.validityPeriod
    customName := if jsTrim form.customName != "" then some form.customName else none }

/-- The parsed body of the /shorten response (interface ApiResponse,
source lines 16-22). The message field is optional here because an error
body may lack it, which the source handles with (data.message or fallback)
at line 131. -/
structure ApiResponse where
  message : Option String
  shortUrl : String
  customName : String
  validityPeriod : String
  expiryDate : String


/-- The JavaScript expression (x or fallback) on an optional string: the
fallback is used when x is undefined or falsy (the empty string). -/
def jsOrString (x : Option String) (fallback : String) : String :=
  match x with
  | some s => if s == "" then fallback else s
  | none => fallback

/-- JavaScript falsiness of localStorage.getItem results: null (absent) and
the empty string are falsy. -/
def jsFalsyStr : Option String → Bool
  | none => true
  | some s => s == ""

/-- Environment of one execution of the POST in handleSubmit. -/
inductive SubmitOutcome where
  | transportError : String → SubmitOutcome
  | response : Bool → ApiResponse → SubmitOutcome


/-- The component state touched by handleSubmit and fetchUserUrls. -/
structure DashState where
  urls : List Json
  urlsLoading : Bool
  formData : FormData
  loading : Bool
  createdUrl : Option ApiResponse
  showModal : Bool


/-- Observable effects of one handleSubmit run: whether navigate("/") was
called, the body sent to /shorten (none when no request was issued), the
tokens passed to fetchUserUrls, and the alert message if any. -/
structure SubmitEffects where
  navigatedHome : Bool
  requestSent : Option RequestBody
  refreshTokens : List String
  alertMessage : Option String


/-- handleSubmit (source lines 94-154). setLoading(true) at entry; the
token gate (lines 99-103) navigates home and returns without any network
call; a thrown transport error or a non-ok response reaches the catch and
alerts; on success the modal state is set, the form is reset and
fetchUserUrls runs once with the same token. The finally clause (lines
151-153) clears loading on every path. -/
def handleSubmit (s : DashState) (storedToken : Option String)
    (outcome : SubmitOutcome) (refreshOutcome : FetchOutcome) :
    DashState × SubmitEffects :=
  let s1 : DashState := { s with loading := true }
  if jsFalsyStr storedToken then
    ({ s1 with loading := false },
     { navigatedHome := true, requestSent := none, refreshTokens := [],
       alertMessage := none })
  else
    let token := storedToken.getD ""
    let body := buildRequestBody s1.formData
    match outcome with
    | SubmitOutcome.transportError msg =>
        ({ s1 with loading := false },
         { navigatedHome := false, requestSent := some body, refreshTokens := [],
           alertMessage := some msg })
    | SubmitOutcome.response ok data =>
        if !ok then
          ({ s1 with loading := false },
           { navigatedHome := false, requestSent := some body, refreshTokens := [],
             alertMessage := some (jsOrString data.message ("Failed to create short URL")) })
        else
          let fetched := fetchUserUrls refreshOutcome
          ({ s1 with
              createdUrl := some data
              showModal := true
              formData := defaultFormData
              urls := fetched.urls
              urlsLoading := fetched.urlsLoading
              loading := false },
           { navigatedHome := false, requestSent := some body,
             refreshTokens := [token], alertMessage := none })

/-- Observable effects of the mount effect (source lines 38-49). -/
structure MountEffects where
  navigatedHome : Bool
  userEmailSet : Option String
  fetchCalledWith : Option String


/-- The mount effect (source lines 38-49): with no (or an empty) persisted
token it navigates home and stops; otherwise it sets the user email and
starts the initial fetch with the token. -/
def mountEffect (storedToken storedEmail : Option String) : MountEffects :=
  if jsFalsyStr storedToken then
    { navigatedHome := true, userEmailSet := none, fetchCalledWith := none }
  else
    { navigatedHome := false
      userEmailSet := some (jsOrString storedEmail "")
      fetchCalledWith := some (storedToken.getD "") }

/-- Derived validity status of a link (status label and tailwind color
class; the color encodes the urgency tier: red = expired, yellow = urgent,
green = normal). -/
structure ValidityStatus where
  status : String
  color : String


/-- One day in milliseconds, as a rational (source line 179 divides
millisecond differences by 1000 * 60 * 60 * 24 in real arithmetic). -/
def msPerDay : ℚ := 1000 * 60 * 60 * 24

/-- Math.ceil((expiry.getTime() - now.getTime()) / (1000*60*60*24)):
the exact real division followed by the ceiling. -/
def daysLeftOf (expiryMs nowMs : Int) : Int :=
  Int.ceil (((expiryMs : ℚ) - (nowMs : ℚ)) / msPerDay)

/-- getValidityStatus (source lines 171-184), with both Date values already
taken to their millisecond timestamps (Date comparison and subtraction in
the source go through getTime). -/
def getValidityStatus (expiryMs nowMs : Int) : ValidityStatus :=
  if nowMs > expiryMs then
    { status := "Expired", color := "text-red-500" }
  else
    let daysLeft := daysLeftOf expiryMs nowMs
    { status := toString daysLeft ++ " day" ++ (if daysLeft != 1 then ("s") else ("")) ++ " left"
      color := if daysLeft ≤ 2 then "text-yellow-500" else "text-green-500" }

end UrlFrontend

namespace UrlFrontend

/-- Bool-level identity: inside the keyed-mapping branch, the source filter
(typeof item === object, item !== null, _id in item) accepts exactly the
objects that carry the _id key. -/
lemma source_filter_eq_hasIdKey (item : Json) :
    (jsTypeofObject item && !(Json.isNull item) && hasIdKey item) = hasIdKey item := by
  cases item <;> simp [jsTypeofObject, Json.isNull, hasIdKey]

/-- First branch of the cascade: a urls field holding an array is used
verbatim. -/
lemma extract_urls_field (data : Json) (xs : List Json)
    (h : Json.getField data ("urls") = some (Json.arr xs)) :
    extractUrlsArray data = xs := by
  cases data with
  | obj fields => simp [extractUrlsArray, h, jsTruthy, Json.isArray]
  | null => simp [Json.getField] at h
  | bool b => simp [Json.getField] at h
  | num n => simp [Json.getField] at h
  | str s => simp [Json.getField] at h
  | arr ys => simp [Json.getField] at h

/-- Second branch of the cascade: a bare array body is used verbatim. -/
lemma extract_bare_array (xs : List Json) :
    extractUrlsArray (Json.arr xs) = xs := by
  simp [extractUrlsArray, Json.getField, Json.isArray, jsTruthy]

/-- Third branch of the cascade: a keyed mapping whose urls field is not an
array is reduced to its values filtered to the id-bearing objects. -/
lemma extract_keyed_obj (fields : List (String × Json))
    (h : ∀ xs, Json.getField (Json.obj fields) ("urls") ≠ some (Json.arr xs)) :
    extractUrlsArray (Json.obj fields) =
      (fields.map (fun p => p.2)).filter hasIdKey := by
  have hfun : (fun item => jsTypeofObject item && !(Json.isNull item) && hasIdKey item)
      = hasIdKey := funext source_filter_eq_hasIdKey
  have htr : jsTruthy (Json.obj fields) = true := rfl
  have hobj : jsTypeofObject (Json.obj fields) = true := rfl
  have hval : Json.values (Json.obj fields) = fields.map (fun p => p.2) := rfl
  cases hu : Json.getField (Json.obj fields) ("urls") with
  | none => simp [extractUrlsArray, hu, htr, hobj, hval, hfun, Json.isArray]
  | some u =>
      cases u with
      | arr xs => exact absurd hu (h xs)
      | null => simp [extractUrlsArray, hu, htr, hobj, hval, hfun, Json.isArray, jsTruthy]
      | bool b => simp [extractUrlsArray, hu, htr, hobj, hval, hfun, Json.isArray, jsTruthy]
      | num n => simp [extractUrlsArray, hu, htr, hobj, hval, hfun, Json.isArray, jsTruthy]
      | str s => simp [extractUrlsArray, hu, htr, hobj, hval, hfun, Json.isArray, jsTruthy]
      | obj g => simp [extractUrlsArray, hu, htr, hobj, hval, hfun, Json.isArray, jsTruthy]

/-- Fallback of the cascade: a primitive body yields the empty list. -/
lemma extract_primitive (data : Json) (h : Json.isPrimitive data = true) :
    extractUrlsArray data = [] := by
  cases data <;>
    simp_all [extractUrlsArray, Json.getField, Json.isArray, jsTypeofObject, jsTruthy,
      Json.isPrimitive]

/-- C1: normalization of the myurls response body follows exactly the
cascade: a urls field holding a sequence is used verbatim; else a bare
sequence body is used verbatim; else the values of a keyed mapping are kept
exactly when they are non-null objects carrying the _id key (so an empty
mapping gives the empty collection and id-less entries are discarded); any
other shape yields the empty collection. -/
theorem claim_C1 (data : Json) :
    (∀ xs, Json.getField data ("urls") = some (Json.arr xs) →
        extractUrlsArray data = xs) ∧
    (∀ xs, data = Json.arr xs → extractUrlsArray data = xs) ∧
    (∀ fields, data = Json.obj fields →
        (∀ xs, Json.getField data ("urls") ≠ some (Json.arr xs)) →
        extractUrlsArray data = (fields.map (fun p => p.2)).filter hasIdKey) ∧
    (Json.isPrimitive data = true → extractUrlsArray data = []) := by
  refine ⟨fun xs h => extract_urls_field data xs h, fun xs h => ?_, fun fields h hne => ?_, ?_⟩
  · subst h; exact extract_bare_array xs
  · subst h; exact extract_keyed_obj fields hne
  · exact extract_primitive data

/-- C1 witness: the mapping mixing an id-bearing object with a plain string
keeps only the id-bearing object, and the empty mapping normalizes to the
empty collection. -/
theorem claim_C1_witness :
    extractUrlsArray (Json.obj [("0", Json.obj [("_id", Json.str "a")]),
        ("note", Json.str "x")]) = [Json.obj [("_id", Json.str "a")]] ∧
    extractUrlsArray (Json.obj []) = [] := by
  constructor
  · have h := (claim_C1 (Json.obj [("0", Json.obj [("_id", Json.str "a")]),
        ("note", Json.str "x")])).2.2.1
        [("0", Json.obj [("_id", Json.str "a")]), ("note", Json.str "x")] rfl
        (by intro xs hx; simp [Json.getField] at hx)
    exact h.trans rfl
  · have h := (claim_C1 (Json.obj [])).2.2.1 [] rfl
        (by intro xs hx; simp [Json.getField] at hx)
    exact h.trans rfl

/-- C10: the id filter belongs only to the keyed-mapping branch; a
sequence-valued urls field and a bare-sequence body are installed verbatim,
so non-object and id-less elements pass through those branches unchanged. -/
theorem claim_C10 (fields : List (String × Json)) (xs : List Json) :
    extractUrlsArray (Json.arr xs) = xs ∧
    (Json.getField (Json.obj fields) ("urls") = some (Json.arr xs) →
        extractUrlsArray (Json.obj fields) = xs) ∧
    extractUrlsArray (Json.arr [Json.null, Json.num 0, Json.str ""]) =
      [Json.null, Json.num 0, Json.str ""] := by
  refine ⟨extract_bare_array xs, fun h => extract_urls_field _ xs h, extract_bare_array _⟩

/-- C10 witness: a urls field holding id-less elements is installed
verbatim. -/
theorem claim_C10_witness :
    extractUrlsArray (Json.obj [("urls", Json.arr [Json.null, Json.str "x"])]) =
      [Json.null, Json.str "x"] :=
  (claim_C10 [("urls", Json.arr [Json.null, Json.str "x"])]
      [Json.null, Json.str "x"]).2.1 rfl

end UrlFrontend

namespace UrlFrontend

/-- String append is associative (reduced to list append on the data). -/
lemma str_append_assoc (a b c : String) : a ++ b ++ c = a ++ (b ++ c) := by
  simp [String.congr_append, List.append_assoc]

/-- The value Math.ceil((expiry - now) / day) is characterised by the two
ceiling inequalities, scaled back to milliseconds. -/
lemma daysLeftOf_bounds (expiryMs nowMs : Int) :
    ((expiryMs : ℚ) - nowMs) ≤ daysLeftOf expiryMs nowMs * msPerDay ∧
    ((daysLeftOf expiryMs nowMs : ℚ) - 1) * msPerDay < (expiryMs : ℚ) - nowMs := by
  have hm : (0 : ℚ) < msPerDay := by norm_num [msPerDay]
  have h1 := Int.le_ceil (((expiryMs : ℚ) - nowMs) / msPerDay)
  have h2 := Int.ceil_lt_add_one (((expiryMs : ℚ) - nowMs) / msPerDay)
  constructor
  · exact (div_le_iff₀ hm).mp (by simpa [daysLeftOf] using h1)
  · have h3 : ((daysLeftOf expiryMs nowMs : ℚ) - 1) < ((expiryMs : ℚ) - nowMs) / msPerDay := by
      simp only [daysLeftOf]
      linarith
    exact (lt_div_iff₀ hm).mp h3

/-- In the non-expired branch the status label is the day count followed by
the singular unit exactly at one day, the plural unit otherwise. -/
lemma status_shape (expiryMs nowMs : Int) (h : nowMs ≤ expiryMs) :
    (getValidityStatus expiryMs nowMs).status =
      toString (daysLeftOf expiryMs nowMs) ++
        (if daysLeftOf expiryMs nowMs = 1 then (" day left") else (" days left")) := by
  have hnot : ¬ (nowMs > expiryMs) := not_lt.mpr h
  simp only [getValidityStatus, if_neg hnot]
  by_cases hd : daysLeftOf expiryMs nowMs = 1
  · simp only [hd]
    rfl
  · have hbne : (daysLeftOf expiryMs nowMs != 1) = true := by
      simp [bne_iff_ne, hd]
    simp only [hbne, if_pos, if_neg hd]
    rw [str_append_assoc, str_append_assoc]
    congr 1

/-- In the non-expired branch the color is yellow (urgent) up to two days
left and green (normal) above. -/
lemma color_shape (expiryMs nowMs : Int) (h : nowMs ≤ expiryMs) :
    (getValidityStatus expiryMs nowMs).color =
      (if daysLeftOf expiryMs nowMs ≤ 2 then ("text-yellow-500")
        else ("text-green-500")) := by
  have hnot : ¬ (nowMs > expiryMs) := not_lt.mpr h
  simp only [getValidityStatus, if_neg hnot]

/-- C2: when now is past the expiry instant the status is Expired with the
expired tier (red), whatever the overrun; otherwise the label carries
daysLeft = ceil((expiry - now) / 1 day) — pinned here by the two ceiling
inequalities — with singular/plural agreement, and the tier is urgent
(yellow) exactly when daysLeft is at most 2, else normal (green). -/
theorem claim_C2 (expiryMs nowMs : Int) :
    (nowMs > expiryMs →
        getValidityStatus expiryMs nowMs =
          { status := "Expired", color := "text-red-500" }) ∧
    (nowMs ≤ expiryMs →
        ((expiryMs : ℚ) - nowMs) ≤ daysLeftOf expiryMs nowMs * msPerDay ∧
        ((daysLeftOf expiryMs nowMs : ℚ) - 1) * msPerDay < (expiryMs : ℚ) - nowMs ∧
        (getValidityStatus expiryMs nowMs).status =
          toString (daysLeftOf expiryMs nowMs) ++
            (if daysLeftOf expiryMs nowMs = 1 then (" day left") else (" days left")) ∧
        (getValidityStatus expiryMs nowMs).color =
          (if daysLeftOf expiryMs nowMs ≤ 2 then ("text-yellow-500")
            else ("text-green-500"))) := by
  constructor
  · intro h
    simp [getValidityStatus, h]
  · intro h
    exact ⟨(daysLeftOf_bounds expiryMs nowMs).1, (daysLeftOf_bounds expiryMs nowMs).2,
      status_shape expiryMs nowMs h, color_shape expiryMs nowMs h⟩

/-- C2 witness: one day of overrun is Expired; a full day of remaining
validity satisfies the ceiling bounds and is labelled with the singular
unit and the urgent color. -/
theorem claim_C2_witness :
    (getValidityStatus 0 86400000 = { status := "Expired", color := "text-red-500" }) ∧
    (((86400000 : ℚ) - 0) ≤ daysLeftOf 86400000 0 * msPerDay ∧
      ((daysLeftOf 86400000 0 : ℚ) - 1) * msPerDay < (86400000 : ℚ) - 0 ∧
      (getValidityStatus 86400000 0).status =
        toString (daysLeftOf 86400000 0) ++
          (if daysLeftOf 86400000 0 = 1 then (" day left") else (" days left")) ∧
      (getValidityStatus 86400000 0).color =
        (if daysLeftOf 86400000 0 ≤ 2 then ("text-yellow-500")
          else ("text-green-500"))) :=
  ⟨(claim_C2 0 86400000).1 (by decide), (claim_C2 86400000 0).2 (by decide)⟩

end UrlFrontend

namespace UrlFrontend

/-- Strictly before the expiry instant at least one day is reported: the
rational (expiry - now) / day is positive, so its ceiling is at least 1. -/
lemma one_le_daysLeftOf (expiryMs nowMs : Int) (h : nowMs < expiryMs) :
    1 ≤ daysLeftOf expiryMs nowMs := by
  have hm : (0 : ℚ) < msPerDay := by norm_num [msPerDay]
  have hq : (0 : ℚ) < ((expiryMs : ℚ) - nowMs) / msPerDay := by
    apply div_pos _ hm
    have : (nowMs : ℚ) < (expiryMs : ℚ) := by exact_mod_cast h
    linarith
  have := Int.ceil_pos.mpr hq
  simpa [daysLeftOf] using this

/-- At the expiry instant itself the reported day count is zero. -/
lemma daysLeftOf_self (t : Int) : daysLeftOf t t = 0 := by
  simp [daysLeftOf]

/-- C9 (implicit): with now strictly before the expiry instant the day
count is at least 1, so the zero label cannot appear strictly before
expiry; and because the expired comparison is strict, the boundary
now = expiry yields exactly the label with day count 0 and the urgent
(yellow) tier. -/
theorem claim_C9 (expiryMs nowMs : Int) :
    (nowMs < expiryMs → 1 ≤ daysLeftOf expiryMs nowMs) ∧
    (nowMs ≤ expiryMs → (daysLeftOf expiryMs nowMs = 0 ↔ nowMs = expiryMs)) ∧
    (nowMs = expiryMs →
        getValidityStatus expiryMs nowMs =
          { status := "0 days left", color := "text-yellow-500" }) := by
  refine ⟨one_le_daysLeftOf expiryMs nowMs, fun h => ⟨fun hz => ?_, fun he => ?_⟩, fun he => ?_⟩
  · rcases lt_or_eq_of_le h with hlt | heq
    · exact absurd hz (by have := one_le_daysLeftOf expiryMs nowMs hlt; omega)
    · exact heq
  · subst he; exact daysLeftOf_self nowMs
  · subst he
    have h0 : daysLeftOf nowMs nowMs = 0 := daysLeftOf_self nowMs
    have hs := status_shape nowMs nowMs le_rfl
    have hc := color_shape nowMs nowMs le_rfl
    rw [h0] at hs hc
    simp only [if_neg (by norm_num : ¬ (0 : Int) = 1)] at hs
    simp only [if_pos (by norm_num : (0 : Int) ≤ 2)] at hc
    calc getValidityStatus nowMs nowMs
        = { status := (getValidityStatus nowMs nowMs).status,
            color := (getValidityStatus nowMs nowMs).color } := rfl
      _ = { status := "0 days left", color := "text-yellow-500" } := by rw [hs, hc]; rfl

/-- C9 witness: at the exact expiry instant the classifier reports the
zero-day label with the urgent tier, and one millisecond before expiry the
day count is already 1. -/
theorem claim_C9_witness :
    1 ≤ daysLeftOf 1000 999 ∧
    getValidityStatus 1000 1000 = { status := "0 days left", color := "text-yellow-500" } :=
  ⟨(claim_C9 1000 999).1 (by decide), (claim_C9 1000 1000).2.2 rfl⟩

/-- C7 counterexample: a query on the same calendar day as the expiry but
strictly before the expiry instant (now at 500 ms, expiry at 1000 ms of the
epoch day) is labelled with one day left, not zero days left, so the
claimed boundary case does not produce the zero label. -/
theorem claim_C7_counterexample :
    (500 : Int) < 1000 ∧
    (getValidityStatus 1000 500).status = "1 day left" ∧
    (getValidityStatus 1000 500).status ≠ "0 days left" := by
  have hd : daysLeftOf 1000 500 = 1 := by
    norm_num [daysLeftOf, msPerDay, Int.ceil_eq_iff]
  have hs := status_shape 1000 500 (by norm_num)
  rw [hd] at hs
  simp only [if_pos rfl] at hs
  refine ⟨by norm_num, ?_, ?_⟩
  · rw [hs]; rfl
  · rw [hs]; decide

/-- C7 as amended: a day count of 1 is labelled with the singular unit;
every other day count, including 0, uses the plural unit; the zero-day
label arises exactly at the boundary now = expiry (the expired comparison
being strict), not on the same day strictly before the expiry instant. -/
theorem claim_C7 (expiryMs nowMs : Int) :
    (nowMs ≤ expiryMs → daysLeftOf expiryMs nowMs = 1 →
        (getValidityStatus expiryMs nowMs).status = "1 day left") ∧
    (nowMs ≤ expiryMs → daysLeftOf expiryMs nowMs ≠ 1 →
        (getValidityStatus expiryMs nowMs).status =
          toString (daysLeftOf expiryMs nowMs) ++ " days left") ∧
    (nowMs = expiryMs →
        (getValidityStatus expiryMs nowMs).status = "0 days left") := by
  refine ⟨fun h h1 => ?_, fun h h1 => ?_, fun he => ?_⟩
  · have hs := status_shape expiryMs nowMs h
    rw [h1] at hs
    simpa using hs
  · have hs := status_shape expiryMs nowMs h
    rw [if_neg h1] at hs
    exact hs
  · subst he
    have hs := status_shape nowMs nowMs le_rfl
    rw [daysLeftOf_self nowMs] at hs
    simp only [if_neg (by norm_num : ¬ (0 : Int) = 1)] at hs
    rw [hs]; rfl

/-- C7 witness: one full remaining day gets the singular label; two full
remaining days get the plural label; the boundary instant gets the zero
plural label. -/
theorem claim_C7_witness :
    (getValidityStatus 86400000 0).status = "1 day left" ∧
    (getValidityStatus 172800000 0).status = toString (daysLeftOf 172800000 0) ++ " days left" ∧
    (getValidityStatus 5 5).status = "0 days left" :=
  ⟨(claim_C7 86400000 0).1 (by decide)
      (by norm_num [daysLeftOf, msPerDay, Int.ceil_eq_iff]),
   (claim_C7 172800000 0).2.1 (by decide)
      (by norm_num [daysLeftOf, msPerDay, Int.ceil_eq_iff]),
   (claim_C7 5 5).2.2 rfl⟩

end UrlFrontend

namespace UrlFrontend

/-- A concrete component state used to instantiate the submit theorems. -/
def sampleState : DashState :=
  { urls := []
    urlsLoading := false
    formData := { originalUrl := "https://example.com", customName := "",
                  validityPeriod := "7days" }
    loading := false
    createdUrl := none
    showModal := false }

/-- C3 counterexample: with the whitespace-padded custom name, the claim
says the trimmed value (my-link) is sent, but the payload carries the
original, untrimmed value, which differs from its trim. -/
theorem claim_C3_counterexample :
    jsTrim " my-link " = "my-link" ∧
    (buildRequestBody
        { originalUrl := "https://example.com", customName := " my-link ",
          validityPeriod := "7days" }).customName = some " my-link " ∧
    some " my-link " ≠ some (jsTrim " my-link ") := by
  refine ⟨rfl, rfl, by decide⟩

/-- C3 as amended: the payload carries a customName field exactly when the
trimmed form value is non-empty, and the value carried is the original
form value, not its trimmed form. -/
theorem claim_C3 (form : FormData) :
    (jsTrim form.customName = "" → (buildRequestBody form).customName = none) ∧
    (jsTrim form.customName ≠ "" →
        (buildRequestBody form).customName = some form.customName) := by
  constructor
  · intro h
    simp [buildRequestBody, h]
  · intro h
    simp [buildRequestBody, bne_iff_ne, h]

/-- C3 witness: a whitespace-only custom name is omitted from the payload;
a padded non-blank one is carried as typed. -/
theorem claim_C3_witness :
    (buildRequestBody
        { originalUrl := "u", customName := "   ",
          validityPeriod := "7days" }).customName = none ∧
    (buildRequestBody
        { originalUrl := "u", customName := " x ",
          validityPeriod := "7days" }).customName = some " x " :=
  ⟨(claim_C3 { originalUrl := "u", customName := "   ", validityPeriod := "7days" }).1 rfl,
   (claim_C3 { originalUrl := "u", customName := " x ", validityPeriod := "7days" }).2
      (by decide)⟩

/-- C4: every run of the refresh clears the loading flag, and every failing
run — transport throw or non-ok status, i.e. every run whose try block ends
in the error channel — ends with the empty collection and the logged error
instead of an escaping exception. -/
theorem claim_C4 (outcome : FetchOutcome) :
    (fetchUserUrls outcome).urlsLoading = false ∧
    (outcome.isFailure = true →
        (fetchUserUrls outcome).urls = [] ∧
        (fetchUserUrls outcome).errorLogged = true) ∧
    (∀ e, fetchAttempt outcome = Except.error e →
        (fetchUserUrls outcome).urls = [] ∧
        (fetchUserUrls outcome).errorLogged = true) := by
  cases outcome with
  | transportError =>
      refine ⟨rfl, fun _ => ⟨rfl, rfl⟩, fun e _ => ⟨rfl, rfl⟩⟩
  | response ok body =>
      cases ok with
      | false => refine ⟨rfl, fun _ => ⟨rfl, rfl⟩, fun e _ => ⟨rfl, rfl⟩⟩
      | true =>
          refine ⟨rfl, fun h => by simp [FetchOutcome.isFailure] at h, fun e he => ?_⟩
          simp [fetchAttempt] at he

/-- C4 witness: a transport failure ends with loading cleared, the empty
collection and the logged error. -/
theorem claim_C4_witness :
    (fetchUserUrls FetchOutcome.transportError).urlsLoading = false ∧
    ((fetchUserUrls FetchOutcome.transportError).urls = [] ∧
      (fetchUserUrls FetchOutcome.transportError).errorLogged = true) :=
  ⟨(claim_C4 FetchOutcome.transportError).1,
   (claim_C4 FetchOutcome.transportError).2.1 rfl⟩

/-- C5: a successful submit presents the returned creation result
(createdUrl is set and the modal shown), resets the form to its defaults,
issues exactly one refresh with the same token, and ends with the loading
flag cleared; the refresh outcome is universally quantified, so even a
failing subsequent refresh leaves the presented creation result in
place. -/
theorem claim_C5 (s : DashState) (token : String) (data : ApiResponse)
    (refreshOutcome : FetchOutcome) (htok : token ≠ "") :
    (handleSubmit s (some token) (SubmitOutcome.response true data)
        refreshOutcome).1.createdUrl = some data ∧
    (handleSubmit s (some token) (SubmitOutcome.response true data)
        refreshOutcome).1.showModal = true ∧
    (handleSubmit s (some token) (SubmitOutcome.response true data)
        refreshOutcome).1.formData =
      { originalUrl := "", customName := "", validityPeriod := "7days" } ∧
    (handleSubmit s (some token) (SubmitOutcome.response true data)
        refreshOutcome).2.refreshTokens = [token] ∧
    (handleSubmit s (some token) (SubmitOutcome.response true data)
        refreshOutcome).1.loading = false := by
  have hf : jsFalsyStr (some token) = false := by
    simp [jsFalsyStr, htok]
  simp [handleSubmit, hf, defaultFormData]

/-- C5 witness: the end-to-end scenario of the specification, with the
subsequent refresh failing at the transport. -/
theorem claim_C5_witness :
    (handleSubmit sampleState (some "tok")
        (SubmitOutcome.response true
          { message := some "URL created", shortUrl := "sl", customName := "",
            validityPeriod := "7days", expiryDate := "2026-10-18" })
        FetchOutcome.transportError).1.createdUrl =
      some { message := some "URL created", shortUrl := "sl", customName := "",
             validityPeriod := "7days", expiryDate := "2026-10-18" } ∧
    (handleSubmit sampleState (some "tok")
        (SubmitOutcome.response true
          { message := some "URL created", shortUrl := "sl", customName := "",
            validityPeriod := "7days", expiryDate := "2026-10-18" })
        FetchOutcome.transportError).1.showModal = true ∧
    (handleSubmit sampleState (some "tok")
        (SubmitOutcome.response true
          { message := some "URL created", shortUrl := "sl", customName := "",
            validityPeriod := "7days", expiryDate := "2026-10-18" })
        FetchOutcome.transportError).1.formData =
      { originalUrl := "", customName := "", validityPeriod := "7days" } ∧
    (handleSubmit sampleState (some "tok")
        (SubmitOutcome.response true
          { message := some "URL created", shortUrl := "sl", customName := "",
            validityPeriod := "7days", expiryDate := "2026-10-18" })
        FetchOutcome.transportError).2.refreshTokens = ["tok"] ∧
    (handleSubmit sampleState (some "tok")
        (SubmitOutcome.response true
          { message := some "URL created", shortUrl := "sl", customName := "",
            validityPeriod := "7days", expiryDate := "2026-10-18" })
        FetchOutcome.transportError).1.loading = false :=
  claim_C5 sampleState "tok"
    { message := some "URL created", shortUrl := "sl", customName := "",
      validityPeriod := "7days", expiryDate := "2026-10-18" }
    FetchOutcome.transportError (by decide)

end UrlFrontend

namespace UrlFrontend

/-- C6 counterexample: a non-success response whose body carries a
present-but-empty message field alerts the generic fallback, not the
message field, because the source falls back on every falsy message. -/
theorem claim_C6_counterexample :
    (handleSubmit sampleState (some "tok")
        (SubmitOutcome.response false
          { message := some "", shortUrl := "", customName := "",
            validityPeriod := "", expiryDate := "" })
        FetchOutcome.transportError).2.alertMessage =
      some "Failed to create short URL" ∧
    some "Failed to create short URL" ≠ some ("" : String) := by
  refine ⟨rfl, by decide⟩

/-- C6 as amended: on a non-success response the body's message field is
alerted when present and non-empty, and the generic fallback is alerted
when the field is absent or empty; the form state is preserved for retry,
and the loading flag is cleared on every exit path of the submission. -/
theorem claim_C6 (s : DashState) (token : String) (data : ApiResponse)
    (refreshOutcome : FetchOutcome) (htok : token ≠ "") :
    (∀ m, data.message = some m → m ≠ "" →
        (handleSubmit s (some token) (SubmitOutcome.response false data)
          refreshOutcome).2.alertMessage = some m) ∧
    (data.message = none →
        (handleSubmit s (some token) (SubmitOutcome.response false data)
          refreshOutcome).2.alertMessage = some "Failed to create short URL") ∧
    (data.message = some "" →
        (handleSubmit s (some token) (SubmitOutcome.response false data)
          refreshOutcome).2.alertMessage = some "Failed to create short URL") ∧
    (handleSubmit s (some token) (SubmitOutcome.response false data)
        refreshOutcome).1.formData = s.formData ∧
    (∀ tok outcome,
        (handleSubmit s tok outcome refreshOutcome).1.loading = false) := by
  have hf : jsFalsyStr (some token) = false := by
    simp [jsFalsyStr, htok]
  refine ⟨fun m hm hne => ?_, fun hm => ?_, fun hm => ?_, ?_, fun tok outcome => ?_⟩
  · simp [handleSubmit, hf, jsOrString, hm, hne]
  · simp [handleSubmit, hf, jsOrString, hm]
  · simp [handleSubmit, hf, jsOrString, hm]
  · simp [handleSubmit, hf]
  · cases outcome with
    | transportError m =>
        simp only [handleSubmit]
        split <;> rfl
    | response ok d =>
        cases ok with
        | false =>
            simp only [handleSubmit]
            split <;> rfl
        | true =>
            simp only [handleSubmit]
            split <;> rfl

/-- C6 witness: a present non-empty message is alerted verbatim, an absent
message falls back to the generic text, and the form state survives the
failure. -/
theorem claim_C6_witness :
    (handleSubmit sampleState (some "tok")
        (SubmitOutcome.response false
          { message := some "Custom name already taken", shortUrl := "",
            customName := "", validityPeriod := "", expiryDate := "" })
        FetchOutcome.transportError).2.alertMessage =
      some "Custom name already taken" ∧
    (handleSubmit sampleState (some "tok")
        (SubmitOutcome.response false
          { message := none, shortUrl := "", customName := "",
            validityPeriod := "", expiryDate := "" })
        FetchOutcome.transportError).2.alertMessage =
      some "Failed to create short URL" ∧
    (handleSubmit sampleState (some "tok")
        (SubmitOutcome.response false
          { message := some "Custom name already taken", shortUrl := "",
            customName := "", validityPeriod := "", expiryDate := "" })
        FetchOutcome.transportError).1.formData = sampleState.formData :=
  ⟨(claim_C6 sampleState "tok"
      { message := some "Custom name already taken", shortUrl := "",
        customName := "", validityPeriod := "", expiryDate := "" }
      FetchOutcome.transportError (by decide)).1
      "Custom name already taken" rfl (by decide),
   (claim_C6 sampleState "tok"
      { message := none, shortUrl := "", customName := "",
        validityPeriod := "", expiryDate := "" }
      FetchOutcome.transportError (by decide)).2.1 rfl,
   (claim_C6 sampleState "tok"
      { message := some "Custom name already taken", shortUrl := "",
        customName := "", validityPeriod := "", expiryDate := "" }
      FetchOutcome.transportError (by decide)).2.2.2.1⟩

/-- C8: with no persisted token the mount effect signals the redirect and
starts no fetch, and a submit aborts with the redirect signal, no request
sent and no refresh issued. -/
theorem claim_C8 (storedEmail : Option String) (s : DashState)
    (outcome : SubmitOutcome) (refreshOutcome : FetchOutcome) :
    (mountEffect none storedEmail).navigatedHome = true ∧
    (mountEffect none storedEmail).fetchCalledWith = none ∧
    (handleSubmit s none outcome refreshOutcome).2.navigatedHome = true ∧
    (handleSubmit s none outcome refreshOutcome).2.requestSent = none ∧
    (handleSubmit s none outcome refreshOutcome).2.refreshTokens = [] :=
  ⟨rfl, rfl, rfl, rfl, rfl⟩

end UrlFrontend
